import Mathlib

/-!
Shallow embedding of the pomodoro-timer core (src/state.rs, src/timer.rs,
src/app.rs, src/persistence.rs, src/config.rs) and proofs about its
state machine, history management and persistence fallback.

Conventions of the embedding:
* `u32` values are `Nat`; where Rust performs arithmetic that can wrap, the
  result is reduced `% 2^32` (release semantics).
* Wall-clock reads (`Utc::now()`) are passed in as an explicit `now : Nat`
  argument; fresh UUIDs (`Uuid::new_v4()`) as an explicit `fresh : String`.
* `Vec<CompletedTimer>` is `List CompletedTimer`; `Vec::push` appends at
  the back, `Vec::remove(0)` drops the front.
* The struct declaration in `src/state.rs` omits the fields
  `rest_time_remaining_secs` and `is_focus_mode`, but `src/app.rs` reads and
  writes both (the dual-track snapshot of the state model). The record here
  carries both fields so that `app.rs` can be embedded; the operations
  defined in `state.rs`/`timer.rs` never touch them.
-/

namespace Pomodoro

/-- The seven-variant timer state enum from `src/state.rs`. -/
inductive TimerState
  | Idle
  | Working
  | WorkPaused
  | ShortBreak
  | BreakPaused
  | LongBreak
  | LongBreakPaused
deriving DecidableEq, Repr

/-- Embeds `TimerState::is_paused` from `src/state.rs`. -/
def TimerState.is_paused : TimerState → Bool
  | .WorkPaused | .BreakPaused | .LongBreakPaused => true
  | _ => false

/-- Embeds `TimerState::is_running` from `src/state.rs`. -/
def TimerState.is_running : TimerState → Bool
  | .Working | .ShortBreak | .LongBreak => true
  | _ => false

/-- Embeds `TimerState::is_work` from `src/state.rs`. -/
def TimerState.is_work : TimerState → Bool
  | .Working | .WorkPaused => true
  | _ => false

/-- Embeds `TimerState::is_break` from `src/state.rs`. -/
def TimerState.is_break : TimerState → Bool
  | .ShortBreak | .BreakPaused | .LongBreak | .LongBreakPaused => true
  | _ => false

/-- Embeds `TimerState::pause` from `src/state.rs`. -/
def TimerState.pause : TimerState → Option TimerState
  | .Working => some .WorkPaused
  | .ShortBreak => some .BreakPaused
  | .LongBreak => some .LongBreakPaused
  | _ => none

/-- Embeds `TimerState::resume` from `src/state.rs`. -/
def TimerState.resume : TimerState → Option TimerState
  | .WorkPaused => some .Working
  | .BreakPaused => some .ShortBreak
  | .LongBreakPaused => some .LongBreak
  | _ => none

/-- Embeds `TimerState::display_name` from `src/state.rs`. -/
def TimerState.display_name : TimerState → String
  | .Idle => "Ready"
  | .Working | .WorkPaused => "Work Session"
  | .ShortBreak | .BreakPaused => "Short Break"
  | .LongBreak | .LongBreakPaused => "Long Break"

/-- Embeds `CompletedTimer` from `src/state.rs`; `completed_at` is a timestamp. -/
structure CompletedTimer where
  id : String
  label : String
  duration_secs : Nat
  session_type : String
  completed_at : Nat
deriving DecidableEq, Repr

/-- Embeds `Config` from `src/config.rs` (durations in minutes, as `u32`). -/
structure Config where
  work_duration : Nat
  short_break_duration : Nat
  long_break_duration : Nat
  sessions_until_long_break : Nat
  enable_notifications : Bool
  auto_start_breaks : Bool
  auto_start_work : Bool
deriving DecidableEq, Repr

/-- Embeds `Config::work_duration_secs` (`u32` multiplication, may wrap). -/
def Config.work_duration_secs (c : Config) : Nat := (c.work_duration * 60) % 2 ^ 32

/-- Embeds `Config::short_break_duration_secs`. -/
def Config.short_break_duration_secs (c : Config) : Nat :=
  (c.short_break_duration * 60) % 2 ^ 32

/-- Embeds `Config::long_break_duration_secs`. -/
def Config.long_break_duration_secs (c : Config) : Nat :=
  (c.long_break_duration * 60) % 2 ^ 32

/-- Embeds `SessionInfo` from `src/state.rs`, extended with the two dual-track
fields (`rest_time_remaining_secs`, `is_focus_mode`) that `src/app.rs`
reads and writes even though the struct declaration in `state.rs` omits
them. -/
structure SessionInfo where
  current_state : TimerState
  time_remaining_secs : Nat
  rest_time_remaining_secs : Nat
  is_focus_mode : Bool
  current_session : Nat
  completed_sessions : Nat
  last_updated : Nat
  current_id : String
  current_label : String
  history : List CompletedTimer
  history_index : Option Nat
deriving DecidableEq, Repr

/-- Embeds `SessionInfo::new` from `src/state.rs`: Idle, zeroed counters, empty
history, a fresh id. The two dual-track fields are absent from the
declaration in `state.rs`; their defaults here (rest counter 0, focus mode
active) follow the spec's fresh-start description. -/
def SessionInfo.new (now : Nat) (id : String) : SessionInfo where
  current_state := .Idle
  time_remaining_secs := 0
  rest_time_remaining_secs := 0
  is_focus_mode := true
  current_session := 1
  completed_sessions := 0
  last_updated := now
  current_id := id
  current_label := ""
  history := []
  history_index := none

/-- Embeds `SessionInfo::add_to_history` from `src/state.rs`: push a
`CompletedTimer` stamped `now`, evict the front entry if the length exceeds
50, regenerate `current_id`. -/
def SessionInfo.add_to_history (info : SessionInfo) (id label : String)
    (duration_secs : Nat) (session_type : String) (now : Nat)
    (fresh : String) : SessionInfo :=
  let h := info.history ++
    [{ id := id, label := label, duration_secs := duration_secs,
       session_type := session_type, completed_at := now }]
  let h := if h.length > 50 then h.drop 1 else h
  { info with history := h, current_id := fresh }

/-- Embeds `SessionInfo::navigate_history_prev` from `src/state.rs`. -/
def SessionInfo.navigate_history_prev (info : SessionInfo) : SessionInfo :=
  if info.history.isEmpty then info
  else
    { info with
      history_index := some (match info.history_index with
        | none => info.history.length - 1
        | some 0 => info.history.length - 1
        | some (Nat.succ i) => i) }

/-- Embeds `SessionInfo::navigate_history_next` from `src/state.rs`. -/
def SessionInfo.navigate_history_next (info : SessionInfo) : SessionInfo :=
  if info.history.isEmpty then info
  else
    { info with
      history_index := some (match info.history_index with
        | none => 0
        | some i => if i ≥ info.history.length - 1 then 0 else i + 1) }

/-- Embeds `SessionInfo::exit_history` from `src/state.rs`. -/
def SessionInfo.exit_history (info : SessionInfo) : SessionInfo :=
  { info with history_index := none }

/-- Embeds `Timer::start_work` from `src/timer.rs`: unconditionally loads the
work duration into the counter. -/
def Timer.start_work (c : Config) (info : SessionInfo) (now : Nat) : SessionInfo :=
  { info with
    current_state := .Working
    time_remaining_secs := c.work_duration_secs
    last_updated := now }

/-- Embeds `Timer::start_short_break` from `src/timer.rs`. -/
def Timer.start_short_break (c : Config) (info : SessionInfo) (now : Nat) : SessionInfo :=
  { info with
    current_state := .ShortBreak
    time_remaining_secs := c.short_break_duration_secs
    last_updated := now }

/-- Embeds `Timer::start_long_break` from `src/timer.rs`. -/
def Timer.start_long_break (c : Config) (info : SessionInfo) (now : Nat) : SessionInfo :=
  { info with
    current_state := .LongBreak
    time_remaining_secs := c.long_break_duration_secs
    last_updated := now }

/-- Embeds `Timer::pause` from `src/timer.rs`: apply `TimerState::pause` if it
yields a state, else leave everything untouched. -/
def Timer.pause (info : SessionInfo) (now : Nat) : SessionInfo :=
  match info.current_state.pause with
  | some s => { info with current_state := s, last_updated := now }
  | none => info

/-- Embeds `Timer::resume` from `src/timer.rs`. -/
def Timer.resume (info : SessionInfo) (now : Nat) : SessionInfo :=
  match info.current_state.resume with
  | some s => { info with current_state := s, last_updated := now }
  | none => info

/-- Embeds `Timer::reset` from `src/timer.rs`: force Idle and zero the work-track
counter. -/
def Timer.reset (info : SessionInfo) (now : Nat) : SessionInfo :=
  { info with
    current_state := .Idle
    time_remaining_secs := 0
    last_updated := now }

/-- Embeds `Timer::skip_to_next` from `src/timer.rs`: the cycle-advance state
machine. `u32` increments are reduced mod `2^32`. -/
def Timer.skip_to_next (c : Config) (info : SessionInfo) (now : Nat) : SessionInfo :=
  let info' :=
    match info.current_state with
    | .Working | .WorkPaused =>
      let info := { info with
        completed_sessions := (info.completed_sessions + 1) % 2 ^ 32 }
      if info.current_session ≥ c.sessions_until_long_break then
        { info with
          current_state := .LongBreak
          time_remaining_secs := c.long_break_duration_secs
          current_session := 1 }
      else
        { info with
          current_state := .ShortBreak
          time_remaining_secs := c.short_break_duration_secs
          current_session := (info.current_session + 1) % 2 ^ 32 }
    | .ShortBreak | .BreakPaused | .LongBreak | .LongBreakPaused =>
      { info with
        current_state := .Working
        time_remaining_secs := c.work_duration_secs }
    | .Idle =>
      { info with
        current_state := .Working
        time_remaining_secs := c.work_duration_secs
        current_session := 1 }
  { info' with last_updated := now }

/-- The three notification kinds dispatched by `src/notifications.rs`. -/
inductive NotifKind
  | workComplete
  | breakComplete
  | longBreakComplete
deriving DecidableEq, Repr

/-- The decrement block of the tick loop in `PomodoroApp::new`
(`src/app.rs` lines 64-92): while running, decrement the counter of the
active track (work when `is_work`, rest otherwise, never below 0) and stamp
`last_updated`. Returns the updated state and the `just_completed` flag
(true exactly when the decrement just reached 0). -/
def tick_decrement (info : SessionInfo) (now : Nat) : SessionInfo × Bool :=
  if info.current_state.is_running then
    if info.current_state.is_work then
      if info.time_remaining_secs > 0 then
        ({ info with
            time_remaining_secs := info.time_remaining_secs - 1
            last_updated := now },
         info.time_remaining_secs - 1 == 0)
      else (info, false)
    else
      if info.rest_time_remaining_secs > 0 then
        ({ info with
            rest_time_remaining_secs := info.rest_time_remaining_secs - 1
            last_updated := now },
         info.rest_time_remaining_secs - 1 == 0)
      else (info, false)
  else (info, false)

/-- The completion protocol of the tick loop (`src/app.rs` lines 99-148):
dispatch the notification keyed by the state being exited (only when
`enable_notifications`), then transition to Idle and stamp `last_updated`.
Returns the new state and the list of notifications dispatched. -/
def completion_protocol (c : Config) (info : SessionInfo) (now : Nat) :
    SessionInfo × List NotifKind :=
  let notifs :=
    if c.enable_notifications then
      match info.current_state with
      | .Working => [NotifKind.workComplete]
      | .ShortBreak => [NotifKind.breakComplete]
      | .LongBreak => [NotifKind.longBreakComplete]
      | _ => []
    else []
  ({ info with current_state := .Idle, last_updated := now }, notifs)

/-- One full iteration of the background tick loop: the decrement block,
followed by the completion protocol exactly when the decrement just reached
zero. -/
def tick_once (c : Config) (info : SessionInfo) (now : Nat) :
    SessionInfo × List NotifKind :=
  let step := tick_decrement info now
  if step.2 then completion_protocol c step.1 now else (step.1, [])

/-- Embeds `PomodoroApp::handle_skip` (`src/app.rs`): if running, archive the
current session (duration = the remaining seconds at the moment of the
skip), force Idle with a zeroed work counter; in every case navigate the
history cursor one step backwards. -/
def handle_skip (info : SessionInfo) (now : Nat) (fresh : String) : SessionInfo :=
  let info' :=
    if info.current_state.is_running then
      let session_type := info.current_state.display_name
      let elapsed := info.time_remaining_secs
      let i := info.add_to_history info.current_id info.current_label
        elapsed session_type now fresh
      { i with current_state := .Idle, time_remaining_secs := 0 }
    else info
  info'.navigate_history_prev

/-- Embeds `PomodoroApp::handle_new_timer` (`src/app.rs`): reset to Idle with a
fresh id, adopt the label buffer, leave history browsing. -/
def handle_new_timer (info : SessionInfo) (label : String) (now : Nat)
    (fresh : String) : SessionInfo :=
  SessionInfo.exit_history
    { info with
      current_state := .Idle
      time_remaining_secs := 0
      current_id := fresh
      current_label := label
      last_updated := now }

/-- Embeds `PomodoroApp::handle_switch_to_focus` (`src/app.rs`): no-op when
already in focus mode; otherwise lazily initialize the work counter, flip
to focus mode and force Idle. -/
def handle_switch_to_focus (c : Config) (info : SessionInfo) (now : Nat) :
    SessionInfo :=
  if info.is_focus_mode then info
  else
    let info :=
      if info.time_remaining_secs = 0 then
        { info with time_remaining_secs := c.work_duration_secs }
      else info
    { info with is_focus_mode := true, current_state := .Idle, last_updated := now }

/-- Embeds `PomodoroApp::handle_switch_to_rest` (`src/app.rs`): symmetric. -/
def handle_switch_to_rest (c : Config) (info : SessionInfo) (now : Nat) :
    SessionInfo :=
  if !info.is_focus_mode then info
  else
    let info :=
      if info.rest_time_remaining_secs = 0 then
        { info with rest_time_remaining_secs := c.short_break_duration_secs }
      else info
    { info with is_focus_mode := false, current_state := .Idle, last_updated := now }

/-- Embeds `PomodoroApp::handle_done_label` (`src/app.rs`): commit the label
buffer into `current_label`. -/
def handle_done_label (info : SessionInfo) (label : String) : SessionInfo :=
  { info with current_label := label }

/-- Embeds `PomodoroApp::handle_toggle` (`src/app.rs`): Idle starts the session of
the active track, running pauses, paused resumes. -/
def handle_toggle (c : Config) (info : SessionInfo) (now : Nat) : SessionInfo :=
  match info.current_state with
  | .Idle =>
    if info.is_focus_mode then Timer.start_work c info now
    else Timer.start_short_break c info now
  | .Working | .ShortBreak | .LongBreak => Timer.pause info now
  | .WorkPaused | .BreakPaused | .LongBreakPaused => Timer.resume info now

/-- The possible conditions of the on-disk snapshot consumed by
`Persistence::load` (`src/persistence.rs`): the file may be absent, may
fail to read, may fail to parse, or may hold a valid `SessionInfo`. -/
inductive StateFile
  | absent
  | unreadable
  | malformed
  | valid (info : SessionInfo)
deriving DecidableEq, Repr

/-- Embeds `Persistence::load` (`src/persistence.rs`): an absent file yields a
fresh default `SessionInfo`; a read or parse failure is propagated as an
error (via the `?` operator with `context`). -/
def Persistence.load (now : Nat) (id : String) :
    StateFile → Except String SessionInfo
  | .absent => .ok (SessionInfo.new now id)
  | .unreadable => .error "Failed to read state file"
  | .malformed => .error "Failed to parse state file"
  | .valid info => .ok info

/-- The load-and-fallback block at the top of `PomodoroApp::new`
(`src/app.rs` lines 28-50): on a successful load, lazily initialize the two
track counters from config and derive `is_focus_mode` from the state; on a
load error, fall back to a fresh default with both counters initialized. -/
def app_load (c : Config) (fs : StateFile) (now : Nat) (id : String) :
    SessionInfo :=
  match Persistence.load now id fs with
  | .ok info =>
    let info :=
      if info.time_remaining_secs = 0 then
        { info with time_remaining_secs := c.work_duration_secs }
      else info
    let info :=
      if info.rest_time_remaining_secs = 0 then
        { info with rest_time_remaining_secs := c.short_break_duration_secs }
      else info
    { info with
      is_focus_mode := info.current_state.is_work || info.current_state == .Idle }
  | .error _ =>
    { SessionInfo.new now id with
      time_remaining_secs := c.work_duration_secs
      rest_time_remaining_secs := c.short_break_duration_secs }

/-- Every `SessionInfo` mutation exposed by the core: the `Timer`
operations (`src/timer.rs`), the history operations (`src/state.rs`), the
command handlers and the tick iteration (`src/app.rs`). -/
inductive Op
  | startWork (now : Nat)
  | startShortBreak (now : Nat)
  | startLongBreak (now : Nat)
  | pause (now : Nat)
  | resume (now : Nat)
  | reset (now : Nat)
  | skipToNext (now : Nat)
  | addToHistory (id label : String) (d : Nat) (ty : String) (now : Nat) (fresh : String)
  | navPrev
  | navNext
  | exitHistory
  | newTimer (label : String) (now : Nat) (fresh : String)
  | skip (now : Nat) (fresh : String)
  | toggle (now : Nat)
  | switchToFocus (now : Nat)
  | switchToRest (now : Nat)
  | doneLabel (label : String)
  | tick (now : Nat)

/-- Interpretation of an `Op` as the state transformer it denotes. -/
def Op.apply (c : Config) (op : Op) (info : SessionInfo) : SessionInfo :=
  match op with
  | .startWork now => Timer.start_work c info now
  | .startShortBreak now => Timer.start_short_break c info now
  | .startLongBreak now => Timer.start_long_break c info now
  | .pause now => Timer.pause info now
  | .resume now => Timer.resume info now
  | .reset now => Timer.reset info now
  | .skipToNext now => Timer.skip_to_next c info now
  | .addToHistory id label d ty now fresh =>
      info.add_to_history id label d ty now fresh
  | .navPrev => info.navigate_history_prev
  | .navNext => info.navigate_history_next
  | .exitHistory => info.exit_history
  | .newTimer label now fresh => handle_new_timer info label now fresh
  | .skip now fresh => handle_skip info now fresh
  | .toggle now => handle_toggle c info now
  | .switchToFocus now => handle_switch_to_focus c info now
  | .switchToRest now => handle_switch_to_rest c info now
  | .doneLabel label => handle_done_label info label
  | .tick now => (tick_once c info now).1

/-- A call in a sequence of `Timer::pause`/`Timer::resume` invocations,
tagged with the wall-clock instant of the call. -/
inductive PRCall
  | pauseAt (now : Nat)
  | resumeAt (now : Nat)
deriving DecidableEq, Repr

/-- Apply one pause/resume call. -/
def PRCall.apply : PRCall → SessionInfo → SessionInfo
  | .pauseAt now, info => Timer.pause info now
  | .resumeAt now, info => Timer.resume info now

/-- Apply a finite sequence of pause/resume calls, left to right. -/
def applyPRSeq (calls : List PRCall) (info : SessionInfo) : SessionInfo :=
  calls.foldl (fun i pc => pc.apply i) info

/-- The default configuration from `Config::default` in `src/config.rs`. -/
def cfg0 : Config where
  work_duration := 25
  short_break_duration := 5
  long_break_duration := 15
  sessions_until_long_break := 4
  enable_notifications := true
  auto_start_breaks := false
  auto_start_work := false

/-- A sample archived entry, for concrete scenarios. -/
def entry (n : Nat) : CompletedTimer where
  id := "e"
  label := ""
  duration_secs := n
  session_type := "Work Session"
  completed_at := n

/-- A concrete base state for counterexamples and witnesses. -/
def info0 : SessionInfo where
  current_state := .Idle
  time_remaining_secs := 0
  rest_time_remaining_secs := 0
  is_focus_mode := true
  current_session := 1
  completed_sessions := 0
  last_updated := 0
  current_id := "id0"
  current_label := ""
  history := []
  history_index := none

/-- A concrete state whose history is full (50 entries). -/
def info50 : SessionInfo :=
  { info0 with history := List.replicate 50 (entry 0) }

/-- A concrete running work session. -/
def infoW : SessionInfo :=
  { info0 with current_state := .Working, time_remaining_secs := 900 }

/-- A concrete state with three archived entries and a live cursor. -/
def info3 : SessionInfo :=
  { info0 with history := [entry 1, entry 2, entry 3] }

/-- Dropping the head of a nonempty list extended on the right keeps the
new last element. -/
theorem getLast_drop_one_concat {α : Type} (l : List α) (a : α) (h : l ≠ []) :
    ((l ++ [a]).drop 1).getLast? = some a := by
  cases l with
  | nil => exact absurd rfl h
  | cons x xs => simp

/-- Helper: `add_to_history` always leaves the freshly archived entry as the last
history element. -/
theorem add_to_history_getLast (info : SessionInfo) (id label : String)
    (d : Nat) (ty : String) (now : Nat) (fresh : String) :
    (info.add_to_history id label d ty now fresh).history.getLast? =
      some { id := id, label := label, duration_secs := d, session_type := ty,
             completed_at := now } := by
  simp only [SessionInfo.add_to_history]
  split_ifs with hgt
  · refine getLast_drop_one_concat _ _ ?_
    intro hnil
    simp [hnil] at hgt
  · simp

/-- Helper: `add_to_history` never empties the history. -/
theorem add_to_history_ne_nil (info : SessionInfo) (id label : String)
    (d : Nat) (ty : String) (now : Nat) (fresh : String) :
    (info.add_to_history id label d ty now fresh).history ≠ [] := by
  simp only [SessionInfo.add_to_history]
  split_ifs with hgt
  · refine List.length_pos.mp ?_
    simp only [List.length_drop, List.length_append, List.length_cons,
      List.length_nil]
    simp only [List.length_append, List.length_cons, List.length_nil] at hgt
    omega
  · simp

/-- Helper: `add_to_history` preserves the 50-entry bound. -/
theorem add_to_history_length_le (info : SessionInfo) (id label : String)
    (d : Nat) (ty : String) (now : Nat) (fresh : String)
    (hle : info.history.length ≤ 50) :
    (info.add_to_history id label d ty now fresh).history.length ≤ 50 := by
  simp only [SessionInfo.add_to_history]
  split_ifs with hgt
  · simp only [List.length_drop, List.length_append, List.length_cons,
      List.length_nil]
    omega
  · simp only [List.length_append, List.length_cons, List.length_nil] at hgt ⊢
    omega

/-- Helper: `add_to_history` does not move the history cursor. -/
theorem add_to_history_history_index (info : SessionInfo) (id label : String)
    (d : Nat) (ty : String) (now : Nat) (fresh : String) :
    (info.add_to_history id label d ty now fresh).history_index =
      info.history_index := by
  simp [SessionInfo.add_to_history]

/-- Helper: `navigate_history_prev` never changes the history itself. -/
theorem navigate_history_prev_history (info : SessionInfo) :
    (info.navigate_history_prev).history = info.history := by
  unfold SessionInfo.navigate_history_prev
  split <;> rfl

/-- Helper: `navigate_history_next` never changes the history itself. -/
theorem navigate_history_next_history (info : SessionInfo) :
    (info.navigate_history_next).history = info.history := by
  unfold SessionInfo.navigate_history_next
  split <;> rfl

/-- Helper: `Timer::pause` changes only the state tag and the timestamp. -/
theorem pause_frame (info : SessionInfo) (now : Nat) :
    (Timer.pause info now).time_remaining_secs = info.time_remaining_secs ∧
    (Timer.pause info now).rest_time_remaining_secs =
      info.rest_time_remaining_secs ∧
    (Timer.pause info now).is_focus_mode = info.is_focus_mode ∧
    (Timer.pause info now).current_session = info.current_session ∧
    (Timer.pause info now).completed_sessions = info.completed_sessions ∧
    (Timer.pause info now).current_id = info.current_id ∧
    (Timer.pause info now).current_label = info.current_label ∧
    (Timer.pause info now).history = info.history ∧
    (Timer.pause info now).history_index = info.history_index := by
  unfold Timer.pause
  split <;> simp

/-- Helper: `Timer::resume` changes only the state tag and the timestamp. -/
theorem resume_frame (info : SessionInfo) (now : Nat) :
    (Timer.resume info now).time_remaining_secs = info.time_remaining_secs ∧
    (Timer.resume info now).rest_time_remaining_secs =
      info.rest_time_remaining_secs ∧
    (Timer.resume info now).is_focus_mode = info.is_focus_mode ∧
    (Timer.resume info now).current_session = info.current_session ∧
    (Timer.resume info now).completed_sessions = info.completed_sessions ∧
    (Timer.resume info now).current_id = info.current_id ∧
    (Timer.resume info now).current_label = info.current_label ∧
    (Timer.resume info now).history = info.history ∧
    (Timer.resume info now).history_index = info.history_index := by
  unfold Timer.resume
  split <;> simp

/-- A single pause/resume call changes only the state tag and the
timestamp. -/
theorem prcall_frame (pc : PRCall) (info : SessionInfo) :
    (pc.apply info).time_remaining_secs = info.time_remaining_secs ∧
    (pc.apply info).rest_time_remaining_secs = info.rest_time_remaining_secs ∧
    (pc.apply info).is_focus_mode = info.is_focus_mode ∧
    (pc.apply info).current_session = info.current_session ∧
    (pc.apply info).completed_sessions = info.completed_sessions ∧
    (pc.apply info).current_id = info.current_id ∧
    (pc.apply info).current_label = info.current_label ∧
    (pc.apply info).history = info.history ∧
    (pc.apply info).history_index = info.history_index := by
  cases pc with
  | pauseAt now => exact pause_frame info now
  | resumeAt now => exact resume_frame info now

/-- Helper: `Timer::skip_to_next` never touches the history. -/
theorem skip_to_next_history (c : Config) (info : SessionInfo) (now : Nat) :
    (Timer.skip_to_next c info now).history = info.history := by
  cases h : info.current_state <;>
    simp [Timer.skip_to_next, h] <;> split <;> rfl

/-- The tick decrement block never touches the history. -/
theorem tick_decrement_history (info : SessionInfo) (now : Nat) :
    ((tick_decrement info now).1).history = info.history := by
  unfold tick_decrement
  split_ifs <;> rfl

/-- One tick iteration never touches the history. -/
theorem tick_once_history (c : Config) (info : SessionInfo) (now : Nat) :
    ((tick_once c info now).1).history = info.history := by
  have h := tick_decrement_history info now
  unfold tick_once
  cases hs : (tick_decrement info now).2 <;> simp [hs, completion_protocol, h]

/-- Helper: `handle_skip` preserves the 50-entry history bound. -/
theorem handle_skip_history_le (info : SessionInfo) (now : Nat)
    (fresh : String) (hle : info.history.length ≤ 50) :
    (handle_skip info now fresh).history.length ≤ 50 := by
  cases hrun : info.current_state.is_running <;>
    simp only [handle_skip, hrun, if_true, if_false, Bool.false_eq_true,
      navigate_history_prev_history]
  · exact hle
  · simpa using add_to_history_length_le info info.current_id
      info.current_label info.time_remaining_secs
      info.current_state.display_name now fresh hle

/-- Helper: `handle_toggle` never touches the history. -/
theorem handle_toggle_history (c : Config) (info : SessionInfo) (now : Nat) :
    (handle_toggle c info now).history = info.history := by
  cases h : info.current_state <;>
    simp [handle_toggle, h, Timer.start_work, Timer.start_short_break,
      (pause_frame info now).2.2.2.2.2.2.2.1,
      (resume_frame info now).2.2.2.2.2.2.2.1]
  split <;> simp [Timer.start_work, Timer.start_short_break]

/-- C1: from Working or WorkPaused, `skip_to_next` with
`current_session ≥ sessions_until_long_break` yields a LongBreak with
`current_session = 1`, the configured long-break duration on the counter and
`completed_sessions` bumped by exactly 1; with
`current_session < sessions_until_long_break` it yields a ShortBreak with
`current_session` bumped by 1 (u32 no-overflow side conditions assumed). -/
theorem skip_to_next_cycle_advance (c : Config) (info : SessionInfo) (now : Nat)
    (hstate : info.current_state = .Working ∨ info.current_state = .WorkPaused)
    (hcs : info.completed_sessions + 1 < 2 ^ 32)
    (hub : c.sessions_until_long_break < 2 ^ 32) :
    (info.current_session ≥ c.sessions_until_long_break →
      (Timer.skip_to_next c info now).current_state = .LongBreak ∧
      (Timer.skip_to_next c info now).current_session = 1 ∧
      (Timer.skip_to_next c info now).time_remaining_secs =
        c.long_break_duration_secs ∧
      (Timer.skip_to_next c info now).completed_sessions =
        info.completed_sessions + 1) ∧
    (info.current_session < c.sessions_until_long_break →
      (Timer.skip_to_next c info now).current_state = .ShortBreak ∧
      (Timer.skip_to_next c info now).current_session =
        info.current_session + 1 ∧
      (Timer.skip_to_next c info now).completed_sessions =
        info.completed_sessions + 1) := by
  constructor
  · intro hge
    rcases hstate with h | h <;> simp [Timer.skip_to_next, h, hge] <;>
      simpa using hcs
  · intro hlt
    have h2 : info.current_session + 1 < 2 ^ 32 :=
      lt_of_le_of_lt (Nat.succ_le_of_lt hlt) hub
    rcases hstate with h | h <;> simp [Timer.skip_to_next, h, Nat.not_le.mpr hlt] <;>
      exact ⟨by simpa using h2, by simpa using hcs⟩

/-- C1 witness: a concrete Working session with `current_session = 4` under
the default config skips to a LongBreak. -/
theorem skip_to_next_cycle_advance_witness :
    (Timer.skip_to_next cfg0 { infoW with current_session := 4 } 11).current_state
        = .LongBreak ∧
    (Timer.skip_to_next cfg0 { infoW with current_session := 4 } 11).current_session
        = 1 ∧
    (Timer.skip_to_next cfg0 { infoW with current_session := 4 } 11).time_remaining_secs
        = cfg0.long_break_duration_secs ∧
    (Timer.skip_to_next cfg0 { infoW with current_session := 4 } 11).completed_sessions
        = { infoW with current_session := 4 }.completed_sessions + 1 :=
  (skip_to_next_cycle_advance cfg0 { infoW with current_session := 4 } 11
    (Or.inl (by decide)) (by decide) (by decide)).1 (by decide)

/-- C2: a tick from Working with one second left zeroes the counter and runs
the completion protocol exactly once — the state becomes Idle and exactly one
work-complete notification is dispatched when notifications are enabled,
none when disabled. -/
theorem tick_work_completion (c : Config) (info : SessionInfo) (now : Nat)
    (hw : info.current_state = .Working) (ht : info.time_remaining_secs = 1) :
    (tick_once c info now).1.time_remaining_secs = 0 ∧
    (tick_once c info now).1.current_state = .Idle ∧
    (c.enable_notifications = true →
      (tick_once c info now).2 = [NotifKind.workComplete]) ∧
    (c.enable_notifications = false → (tick_once c info now).2 = []) := by
  cases hc : c.enable_notifications <;>
    simp [tick_once, tick_decrement, completion_protocol, hw, ht, hc,
      TimerState.is_running, TimerState.is_work]

/-- C2 witness: the concrete Working session with 1 second left under the
default (notifications-enabled) config. -/
theorem tick_work_completion_witness :
    (tick_once cfg0 { infoW with time_remaining_secs := 1 } 3).1.current_state
        = .Idle ∧
    (tick_once cfg0 { infoW with time_remaining_secs := 1 } 3).2
        = [NotifKind.workComplete] :=
  ⟨(tick_work_completion cfg0 { infoW with time_remaining_secs := 1 } 3
      (by decide) (by decide)).2.1,
   (tick_work_completion cfg0 { infoW with time_remaining_secs := 1 } 3
      (by decide) (by decide)).2.2.1 (by decide)⟩

/-- C4 counterexample: with 100 seconds already on the counter and focus
mode off, `start_work` overwrites the counter with the configured work
duration (the claim says it would be left unchanged) and does not set
`is_focus_mode` to true. -/
theorem start_work_counterexample :
    (Timer.start_work cfg0
        { info0 with time_remaining_secs := 100, is_focus_mode := false } 7).time_remaining_secs
      ≠ 100 ∧
    (Timer.start_work cfg0
        { info0 with time_remaining_secs := 100, is_focus_mode := false } 7).is_focus_mode
      = false := by decide

/-- C4 amended: `start_work` sets the state to Working, unconditionally
loads the configured work duration into the counter and stamps
`last_updated`; every other field, `is_focus_mode` included, is unchanged. -/
theorem start_work_amended (c : Config) (info : SessionInfo) (now : Nat) :
    (Timer.start_work c info now).current_state = .Working ∧
    (Timer.start_work c info now).time_remaining_secs = c.work_duration_secs ∧
    (Timer.start_work c info now).last_updated = now ∧
    (Timer.start_work c info now).is_focus_mode = info.is_focus_mode ∧
    (Timer.start_work c info now).rest_time_remaining_secs =
      info.rest_time_remaining_secs ∧
    (Timer.start_work c info now).current_session = info.current_session ∧
    (Timer.start_work c info now).completed_sessions = info.completed_sessions ∧
    (Timer.start_work c info now).history = info.history := by
  simp [Timer.start_work]

/-- C5 counterexample: resetting a running work session zeroes the counter
instead of restoring the configured full work duration as the claim
states. -/
theorem reset_counterexample :
    (Timer.reset { infoW with time_remaining_secs := 700 } 3).time_remaining_secs
      = 0 ∧
    (Timer.reset { infoW with time_remaining_secs := 700 } 3).time_remaining_secs
      ≠ cfg0.work_duration_secs := by decide

/-- C5 amended: `reset` forces Idle and zeroes `time_remaining_secs`
regardless of the active track; the rest-track counter and `is_focus_mode`
are unchanged. -/
theorem reset_amended (info : SessionInfo) (now : Nat) :
    (Timer.reset info now).current_state = .Idle ∧
    (Timer.reset info now).time_remaining_secs = 0 ∧
    (Timer.reset info now).rest_time_remaining_secs =
      info.rest_time_remaining_secs ∧
    (Timer.reset info now).is_focus_mode = info.is_focus_mode ∧
    (Timer.reset info now).last_updated = now := by
  simp [Timer.reset]

/-- C3 counterexample: from a concrete running work session the manual skip
lands in Idle, not in the state the §4.1 cycle-advance (`skip_to_next`)
would produce. -/
theorem handle_skip_counterexample :
    (handle_skip infoW 5 "f1").current_state
      ≠ (Timer.skip_to_next cfg0 infoW 5).current_state := by decide

/-- C3 amended: the manual skip, from a running state viewed live
(`history_index = none`), archives the current session (id, label, the
remaining seconds, the display name, stamped now) as the last history
entry, forces Idle with a zeroed counter — it does not apply the §4.1
cycle-advance — and leaves the cursor on the just-archived entry; from a
non-running state it only moves the history cursor one step back. -/
theorem handle_skip_amended (info : SessionInfo) (now : Nat) (fresh : String) :
    (info.current_state.is_running = true → info.history_index = none →
      (handle_skip info now fresh).current_state = .Idle ∧
      (handle_skip info now fresh).time_remaining_secs = 0 ∧
      (handle_skip info now fresh).history.getLast? =
        some { id := info.current_id, label := info.current_label,
               duration_secs := info.time_remaining_secs,
               session_type := info.current_state.display_name,
               completed_at := now } ∧
      (handle_skip info now fresh).history_index =
        some ((handle_skip info now fresh).history.length - 1)) ∧
    (info.current_state.is_running = false →
      handle_skip info now fresh = info.navigate_history_prev) := by
  constructor
  · intro hrun hidx
    have hne := add_to_history_ne_nil info info.current_id info.current_label
      info.time_remaining_secs info.current_state.display_name now fresh
    have hE : (info.add_to_history info.current_id info.current_label
        info.time_remaining_secs info.current_state.display_name now
        fresh).history.isEmpty = false := by
      cases hh : (info.add_to_history info.current_id info.current_label
          info.time_remaining_secs info.current_state.display_name now
          fresh).history with
      | nil => exact absurd hh hne
      | cons a t => rfl
    have hI := add_to_history_history_index info info.current_id
      info.current_label info.time_remaining_secs
      info.current_state.display_name now fresh
    have hL := add_to_history_getLast info info.current_id info.current_label
      info.time_remaining_secs info.current_state.display_name now fresh
    simp [handle_skip, hrun, SessionInfo.navigate_history_prev, hE, hI, hidx, hL]
  · intro hnot
    simp [handle_skip, hnot]

/-- C3 witness: skipping the concrete running work session archives it,
lands in Idle and leaves the cursor on the archived entry. -/
theorem handle_skip_amended_witness :
    (handle_skip infoW 5 "f4").current_state = .Idle ∧
    (handle_skip infoW 5 "f4").history.getLast? =
      some { id := "id0", label := "", duration_secs := 900,
             session_type := "Work Session", completed_at := 5 } ∧
    (handle_skip infoW 5 "f4").history_index = some 0 :=
  ⟨((handle_skip_amended infoW 5 "f4").1 (by decide) (by decide)).1,
   ((handle_skip_amended infoW 5 "f4").1 (by decide) (by decide)).2.2.1,
   (((handle_skip_amended infoW 5 "f4").1 (by decide) (by decide)).2.2.2).trans
     (by decide)⟩

/-- C6 counterexample: a malformed snapshot makes `Persistence::load`
return an error rather than a fresh default `SessionInfo`. -/
theorem load_counterexample :
    Persistence.load 0 "id0" StateFile.malformed =
      Except.error "Failed to parse state file" ∧
    Persistence.load 0 "id0" StateFile.malformed ≠
      Except.ok (SessionInfo.new 0 "id0") :=
  ⟨rfl, fun h => Except.noConfusion h⟩

/-- C6 amended: `load` itself yields a fresh default only for an absent
snapshot and propagates read/parse failures as errors; the caller
(`PomodoroApp::new`) catches every load error and falls back to a fresh
default with both track counters initialized from config, so no hard
failure propagates past app construction. -/
theorem load_fallback (c : Config) (fs : StateFile) (now : Nat) (id : String) :
    Persistence.load now id StateFile.absent = .ok (SessionInfo.new now id) ∧
    ((∃ e, Persistence.load now id fs = .error e) →
      app_load c fs now id =
        { SessionInfo.new now id with
          time_remaining_secs := c.work_duration_secs
          rest_time_remaining_secs := c.short_break_duration_secs }) := by
  refine ⟨rfl, ?_⟩
  rintro ⟨e, he⟩
  cases fs with
  | absent => exact absurd he (by simp [Persistence.load])
  | unreadable => rfl
  | malformed => rfl
  | valid info => exact absurd he (by simp [Persistence.load])

/-- C6 witness: an unreadable snapshot under the default config yields the
initialized fresh default at the app level. -/
theorem load_fallback_witness :
    Persistence.load 4 "fresh" StateFile.absent =
      .ok (SessionInfo.new 4 "fresh") ∧
    Persistence.load 4 "fresh" StateFile.unreadable =
      .error "Failed to read state file" ∧
    app_load cfg0 StateFile.unreadable 4 "fresh" =
      { SessionInfo.new 4 "fresh" with
        time_remaining_secs := cfg0.work_duration_secs
        rest_time_remaining_secs := cfg0.short_break_duration_secs } :=
  ⟨(load_fallback cfg0 StateFile.unreadable 4 "fresh").1, rfl,
   (load_fallback cfg0 StateFile.unreadable 4 "fresh").2
     ⟨"Failed to read state file", rfl⟩⟩

/-- C7: the bound `history.len ≤ 50` is preserved by every core operation;
moreover a full (50-entry) history, after `add_to_history`, still has
exactly 50 entries — the oldest entry is evicted and the remaining entries
are retained in order, followed by the new entry. -/
theorem history_bound_invariant (c : Config) (info : SessionInfo)
    (id label ty fresh : String) (d now : Nat) :
    (∀ op : Op, info.history.length ≤ 50 →
      (Op.apply c op info).history.length ≤ 50) ∧
    (info.history.length = 50 →
      (info.add_to_history id label d ty now fresh).history.length = 50 ∧
      (info.add_to_history id label d ty now fresh).history =
        info.history.tail ++
          [{ id := id, label := label, duration_secs := d, session_type := ty,
             completed_at := now }]) := by
  constructor
  · intro op hle
    cases op with
    | startWork n => simpa [Op.apply, Timer.start_work] using hle
    | startShortBreak n => simpa [Op.apply, Timer.start_short_break] using hle
    | startLongBreak n => simpa [Op.apply, Timer.start_long_break] using hle
    | pause n => simpa [Op.apply, (pause_frame info n).2.2.2.2.2.2.2.1] using hle
    | resume n => simpa [Op.apply, (resume_frame info n).2.2.2.2.2.2.2.1] using hle
    | reset n => simpa [Op.apply, Timer.reset] using hle
    | skipToNext n => simpa [Op.apply, skip_to_next_history] using hle
    | addToHistory id2 label2 d2 ty2 n2 fresh2 =>
        exact add_to_history_length_le info id2 label2 d2 ty2 n2 fresh2 hle
    | navPrev => simpa [Op.apply, navigate_history_prev_history] using hle
    | navNext => simpa [Op.apply, navigate_history_next_history] using hle
    | exitHistory => simpa [Op.apply, SessionInfo.exit_history] using hle
    | newTimer label2 n2 fresh2 =>
        simpa [Op.apply, handle_new_timer, SessionInfo.exit_history] using hle
    | skip n2 fresh2 => exact handle_skip_history_le info n2 fresh2 hle
    | toggle n2 => simpa [Op.apply, handle_toggle_history] using hle
    | switchToFocus n2 =>
        simp only [Op.apply, handle_switch_to_focus]
        split_ifs <;> simpa using hle
    | switchToRest n2 =>
        simp only [Op.apply, handle_switch_to_rest]
        split_ifs <;> simpa using hle
    | doneLabel label2 => simpa [Op.apply, handle_done_label] using hle
    | tick n2 => simpa [Op.apply, tick_once_history] using hle
  · intro hlen
    constructor
    · simp only [SessionInfo.add_to_history]
      split_ifs with hgt
      · simp only [List.length_drop, List.length_append, List.length_cons,
          List.length_nil]
        omega
      · simp only [gt_iff_lt, not_lt, List.length_append, List.length_cons,
          List.length_nil] at hgt
        omega
    · simp only [SessionInfo.add_to_history]
      split_ifs with hgt
      · cases hl : info.history with
        | nil => rw [hl] at hlen; simp at hlen
        | cons x xs => simp [hl]
      · simp only [gt_iff_lt, not_lt, List.length_append, List.length_cons,
          List.length_nil] at hgt
        exact absurd hlen (by omega)

/-- C7 witness: the concrete full history keeps exactly 50 entries through
an `add_to_history`. -/
theorem history_bound_invariant_witness :
    info50.history.length ≤ 50 ∧
    (Op.apply cfg0 (Op.addToHistory "a" "b" 3 "t" 9 "f") info50).history.length
      ≤ 50 ∧
    info50.history.length = 50 ∧
    (info50.add_to_history "a" "b" 3 "t" 9 "f").history.length = 50 :=
  ⟨by decide,
   (history_bound_invariant cfg0 info50 "a" "b" "t" "f" 3 9).1
     (Op.addToHistory "a" "b" 3 "t" 9 "f") (by decide),
   by decide,
   ((history_bound_invariant cfg0 info50 "a" "b" "t" "f" 3 9).2 (by decide)).1⟩

/-- C8: with a non-empty history, `navigate_history_prev` and
`navigate_history_next` move the cursor circularly: Prev from `none` or
`some 0` wraps to the last index and otherwise decrements; Next from `none`
yields index 0, from the last valid index wraps to 0, and otherwise
increments; with an empty history both are no-ops. -/
theorem navigate_history_circular (info : SessionInfo) :
    (info.history = [] →
      info.navigate_history_prev = info ∧ info.navigate_history_next = info) ∧
    (info.history ≠ [] →
      ((info.history_index = none ∨ info.history_index = some 0) →
        (info.navigate_history_prev).history_index =
          some (info.history.length - 1)) ∧
      (∀ i, info.history_index = some (i + 1) →
        (info.navigate_history_prev).history_index = some i) ∧
      (info.history_index = none →
        (info.navigate_history_next).history_index = some 0) ∧
      (∀ i, info.history_index = some i → i = info.history.length - 1 →
        (info.navigate_history_next).history_index = some 0) ∧
      (∀ i, info.history_index = some i → i + 1 < info.history.length →
        (info.navigate_history_next).history_index = some (i + 1))) := by
  constructor
  · intro h
    simp [SessionInfo.navigate_history_prev, SessionInfo.navigate_history_next, h]
  · intro h
    have he : info.history.isEmpty = false := by
      cases hh : info.history with
      | nil => exact absurd hh h
      | cons a t => rfl
    refine ⟨?_, ?_, ?_, ?_, ?_⟩
    · rintro (hi | hi) <;>
        simp [SessionInfo.navigate_history_prev, he, hi]
    · intro i hi
      simp [SessionInfo.navigate_history_prev, he, hi]
    · intro hi
      simp [SessionInfo.navigate_history_next, he, hi]
    · intro i hi hlast
      simp [SessionInfo.navigate_history_next, he, hi, hlast]
    · intro i hi hlt
      have hni : ¬ i ≥ info.history.length - 1 := by omega
      simp [SessionInfo.navigate_history_next, he, hi, hni]

/-- C8 witness: with three entries and a live cursor, Prev lands on
index 2 and Next on index 0. -/
theorem navigate_history_circular_witness :
    info3.history ≠ [] ∧
    (info3.navigate_history_prev).history_index = some 2 ∧
    (info3.navigate_history_next).history_index = some 0 :=
  ⟨by decide,
   (((navigate_history_circular info3).2 (by decide)).1 (Or.inl rfl)).trans
     (by decide),
   ((navigate_history_circular info3).2 (by decide)).2.2.1 rfl⟩

/-- C9: an arbitrary finite sequence of `pause`/`resume` calls leaves every
field except the state tag and `last_updated` unchanged — in particular
both track counters. -/
theorem pause_resume_sequence_frame (calls : List PRCall) (info : SessionInfo) :
    (applyPRSeq calls info).time_remaining_secs = info.time_remaining_secs ∧
    (applyPRSeq calls info).rest_time_remaining_secs =
      info.rest_time_remaining_secs ∧
    (applyPRSeq calls info).is_focus_mode = info.is_focus_mode ∧
    (applyPRSeq calls info).current_session = info.current_session ∧
    (applyPRSeq calls info).completed_sessions = info.completed_sessions ∧
    (applyPRSeq calls info).current_id = info.current_id ∧
    (applyPRSeq calls info).current_label = info.current_label ∧
    (applyPRSeq calls info).history = info.history ∧
    (applyPRSeq calls info).history_index = info.history_index := by
  induction calls generalizing info with
  | nil => simp [applyPRSeq]
  | cons pc rest ih =>
    obtain ⟨a1, a2, a3, a4, a5, a6, a7, a8, a9⟩ := prcall_frame pc info
    obtain ⟨b1, b2, b3, b4, b5, b6, b7, b8, b9⟩ := ih (pc.apply info)
    simp only [applyPRSeq, List.foldl_cons] at b1 b2 b3 b4 b5 b6 b7 b8 b9 ⊢
    exact ⟨b1.trans a1, b2.trans a2, b3.trans a3, b4.trans a4, b5.trans a5,
      b6.trans a6, b7.trans a7, b8.trans a8, b9.trans a9⟩

/-- C10: the skip command archives exactly when the state is running, and
the archived entry's `duration_secs` is the remaining (unelapsed) seconds
at the moment of the skip; when not running, the whole effect is the
one-step-back cursor move of `navigate_history_prev`. -/
theorem skip_archive_conditions (info : SessionInfo) (now : Nat)
    (fresh : String) :
    (info.current_state.is_running = true →
      (handle_skip info now fresh).history.getLast? =
        some { id := info.current_id, label := info.current_label,
               duration_secs := info.time_remaining_secs,
               session_type := info.current_state.display_name,
               completed_at := now }) ∧
    (info.current_state.is_running = false →
      handle_skip info now fresh = info.navigate_history_prev ∧
      (handle_skip info now fresh).history = info.history) := by
  constructor
  · intro hrun
    have hL := add_to_history_getLast info info.current_id info.current_label
      info.time_remaining_secs info.current_state.display_name now fresh
    simp [handle_skip, hrun, navigate_history_prev_history, hL]
  · intro hnot
    constructor
    · simp [handle_skip, hnot]
    · simp [handle_skip, hnot, navigate_history_prev_history]

/-- C10 witness: skipping the concrete running session archives its
remaining 900 seconds; skipping the concrete idle state is exactly a
cursor move. -/
theorem skip_archive_conditions_witness :
    (handle_skip infoW 5 "f2").history.getLast? =
      some { id := "id0", label := "", duration_secs := 900,
             session_type := "Work Session", completed_at := 5 } ∧
    handle_skip info0 9 "f3" = info0.navigate_history_prev :=
  ⟨(skip_archive_conditions infoW 5 "f2").1 (by decide),
   ((skip_archive_conditions info0 9 "f3").2 (by decide)).1⟩

end Pomodoro
